import Mathlib

/-!
Formalisation of the Mergington High School activities API (`src/app.py`).

The service keeps one in-memory roster (`activities`), a mapping from
activity name to an activity record, and exposes three operations:
listing the roster, signing a student up for an activity, and
unregistering a student.  We embed the roster as an association list
(Python dictionaries keep insertion order and have unique keys), and
the two mutating handlers as pure functions returning the HTTP response
together with the updated roster; raising an `HTTPException` in the
Python code corresponds to returning an error response with the roster
unchanged.
-/

/-- One activity record, mirroring the dictionaries stored in the
`activities` database of `app.py`.  Some seeded entries carry a
redundant `"name"` field and some do not, hence `Option String`. -/
structure Activity where
  name : Option String
  description : String
  schedule : String
  max_participants : Nat
  participants : List String
deriving DecidableEq

/-- The roster: a mapping from activity name to activity record,
embedded as an association list in dictionary insertion order. -/
abbrev Roster := List (String × Activity)

/-- Dictionary lookup `activities[activity_name]` (also the membership
test `activity_name in activities`): the value at the first matching
key, if any. -/
def findActivity : Roster → String → Option Activity
  | [], _ => none
  | (k, v) :: rest, n => if k = n then some v else findActivity rest n

/-- In-place mutation of the record stored under key `n`
(Python mutates `activities[n]` through the alias `activity`). -/
def updateActivity (roster : Roster) (n : String) (f : Activity → Activity) : Roster :=
  roster.map fun p => (p.1, if p.1 = n then f p.2 else p.2)

/-- Python's `list.remove(x)`: drop the first occurrence of `x`. -/
def removeFirst : List String → String → List String
  | [], _ => []
  | x :: rest, e => if x = e then rest else x :: removeFirst rest e

/-- An HTTP response of the service: `ok` is a 200 reply carrying the
`"message"` body, `error` is a raised `HTTPException` with its status
code and `"detail"` body. -/
inductive Response where
  | ok (message : String)
  | error (status_code : Nat) (detail : String)
deriving DecidableEq

/-- The seeded `"Soccer Club"` record from `app.py`. -/
def soccerClub : Activity :=
  { name := some "Soccer Club"
    description := "Join our competitive soccer team and participate in friendly matches"
    schedule := "Mondays and Wednesdays, 4:00 PM - 5:30 PM"
    max_participants := 22
    participants := ["alex@mergington.edu"] }

/-- The seeded `"Tennis Team"` record from `app.py`. -/
def tennisTeam : Activity :=
  { name := some "Tennis Team"
    description := "Develop tennis skills and compete in intramural tournaments"
    schedule := "Tuesdays and Thursdays, 3:30 PM - 5:00 PM"
    max_participants := 16
    participants := ["james@mergington.edu"] }

/-- The seeded `"Art Club"` record from `app.py`. -/
def artClub : Activity :=
  { name := some "Art Club"
    description := "Explore various art mediums including painting, drawing, and sculpture"
    schedule := "Wednesdays, 3:30 PM - 5:00 PM"
    max_participants := 15
    participants := ["isabella@mergington.edu"] }

/-- The seeded `"Drama Club"` record from `app.py`. -/
def dramaClub : Activity :=
  { name := some "Drama Club"
    description := "Perform in theatrical productions and develop acting skills"
    schedule := "Mondays, Wednesdays, Fridays, 3:30 PM - 5:00 PM"
    max_participants := 20
    participants := ["lucas@mergington.edu", "grace@mergington.edu"] }

/-- The seeded `"Robotics Club"` record from `app.py`. -/
def roboticsClub : Activity :=
  { name := some "Robotics Club"
    description := "Build and program robots for competitions and challenges"
    schedule := "Saturdays, 10:00 AM - 12:00 PM"
    max_participants := 18
    participants := ["ryan@mergington.edu"] }

/-- The seeded `"Math Team"` record from `app.py`. -/
def mathTeam : Activity :=
  { name := some "Math Team"
    description := "Solve challenging math problems and compete in regional competitions"
    schedule := "Thursdays, 4:00 PM - 5:30 PM"
    max_participants := 12
    participants := ["zoe@mergington.edu"] }

/-- The seeded `"Chess Club"` record from `app.py`. -/
def chessClub : Activity :=
  { name := some "Chess Club"
    description := "Learn strategies and compete in chess tournaments"
    schedule := "Fridays, 3:30 PM - 5:00 PM"
    max_participants := 12
    participants := ["michael@mergington.edu", "daniel@mergington.edu"] }

/-- The seeded `"Programming Class"` record from `app.py` (no `"name"` field). -/
def programmingClass : Activity :=
  { name := none
    description := "Learn programming fundamentals and build software projects"
    schedule := "Tuesdays and Thursdays, 3:30 PM - 4:30 PM"
    max_participants := 20
    participants := ["emma@mergington.edu", "sophia@mergington.edu"] }

/-- The seeded `"Gym Class"` record from `app.py` (no `"name"` field). -/
def gymClass : Activity :=
  { name := none
    description := "Physical education and sports activities"
    schedule := "Mondays, Wednesdays, Fridays, 2:00 PM - 3:00 PM"
    max_participants := 30
    participants := ["john@mergington.edu", "olivia@mergington.edu"] }

/-- The in-memory activity database seeded at startup in `app.py`,
in dictionary insertion order. -/
def activities : Roster :=
  [ ("Soccer Club", soccerClub)
  , ("Tennis Team", tennisTeam)
  , ("Art Club", artClub)
  , ("Drama Club", dramaClub)
  , ("Robotics Club", roboticsClub)
  , ("Math Team", mathTeam)
  , ("Chess Club", chessClub)
  , ("Programming Class", programmingClass)
  , ("Gym Class", gymClass) ]

/-- `GET /activities` (`get_activities` in `app.py`): returns the whole
roster unchanged; it reads and never mutates. -/
def get_activities (roster : Roster) : Roster :=
  roster

/-- `POST /activities/\x7bactivity_name\x7d/signup`
(`signup_for_activity` in `app.py`): 404 if the activity is unknown,
400 if the email is already a participant, otherwise append the email
and answer with the confirmation message.  The second component is the
roster after the request. -/
def signup_for_activity (roster : Roster) (activity_name email : String) :
    Response × Roster :=
  match findActivity roster activity_name with
  | none => (Response.error 404 "Activity not found", roster)
  | some activity =>
    if email ∈ activity.participants then
      (Response.error 400 "Student already signed up for this activity", roster)
    else
      (Response.ok ("Signed up " ++ email ++ " for " ++ activity_name),
       updateActivity roster activity_name fun a =>
         { a with participants := a.participants ++ [email] })

/-- `DELETE /activities/\x7bactivity_name\x7d/unregister`
(`unregister_from_activity` in `app.py`): 404 if the activity is
unknown, 400 if the email is not a participant, otherwise remove the
first matching entry and answer with the confirmation message. -/
def unregister_from_activity (roster : Roster) (activity_name email : String) :
    Response × Roster :=
  match findActivity roster activity_name with
  | none => (Response.error 404 "Activity not found", roster)
  | some activity =>
    if email ∈ activity.participants then
      (Response.ok ("Unregistered " ++ email ++ " from " ++ activity_name),
       updateActivity roster activity_name fun a =>
         { a with participants := removeFirst a.participants email })
    else
      (Response.error 400 "Student not signed up for this activity", roster)

/-- One client request against the service. -/
inductive Op where
  | list
  | signup (activity_name email : String)
  | unregister (activity_name email : String)

/-- The roster after serving one request (an error response leaves the
roster unchanged, as the Python handlers raise before mutating). -/
def applyOp (roster : Roster) : Op → Roster
  | Op.list => get_activities roster
  | Op.signup a e => (signup_for_activity roster a e).2
  | Op.unregister a e => (unregister_from_activity roster a e).2

/-- The roster after serving a finite sequence of requests. -/
def runOps (roster : Roster) (ops : List Op) : Roster :=
  ops.foldl applyOp roster

/-! ### Lemmas about the roster primitives -/

theorem findActivity_updateActivity_self (r : Roster) (n : String) (f : Activity → Activity) :
    findActivity (updateActivity r n f) n = (findActivity r n).map f := by
  induction r with
  | nil => rfl
  | cons p rest ih =>
    obtain ⟨k, v⟩ := p
    by_cases hk : k = n
    · subst hk
      simp [updateActivity, findActivity]
    · simp only [updateActivity, List.map_cons, findActivity, if_neg hk]
      exact ih

theorem findActivity_updateActivity_ne (r : Roster) (n m : String) (f : Activity → Activity)
    (h : m ≠ n) : findActivity (updateActivity r n f) m = findActivity r m := by
  induction r with
  | nil => rfl
  | cons p rest ih =>
    obtain ⟨k, v⟩ := p
    simp only [updateActivity, List.map_cons, findActivity]
    by_cases hm : k = m
    · subst hm
      rw [if_pos rfl, if_pos rfl, if_neg h]
    · rw [if_neg hm, if_neg hm]
      exact ih

theorem updateActivity_map_fst (r : Roster) (n : String) (f : Activity → Activity) :
    (updateActivity r n f).map Prod.fst = r.map Prod.fst := by
  induction r with
  | nil => rfl
  | cons p rest ih =>
    simp only [updateActivity, List.map_cons] at ih ⊢
    rw [ih]

theorem updateActivity_updateActivity (r : Roster) (n : String) (f g : Activity → Activity) :
    updateActivity (updateActivity r n f) n g = updateActivity r n (fun a => g (f a)) := by
  induction r with
  | nil => rfl
  | cons p rest ih =>
    obtain ⟨k, v⟩ := p
    simp only [updateActivity, List.map_cons] at ih ⊢
    rw [ih]
    by_cases hk : k = n
    · rw [if_pos hk, if_pos hk, if_pos hk]
    · rw [if_neg hk, if_neg hk, if_neg hk]

theorem updateActivity_of_not_mem_keys (r : Roster) (n : String) (f : Activity → Activity)
    (h : n ∉ r.map Prod.fst) : updateActivity r n f = r := by
  induction r with
  | nil => rfl
  | cons p rest ih =>
    simp only [List.map_cons, List.mem_cons, not_or] at h
    have hp : p.1 ≠ n := fun hh => h.1 hh.symm
    have hrest := ih h.2
    simp only [updateActivity, List.map_cons, if_neg hp] at hrest ⊢
    rw [hrest]

theorem updateActivity_id_of_findActivity (r : Roster) (n : String) (f : Activity → Activity)
    (act : Activity) (hkeys : (r.map Prod.fst).Nodup)
    (h : findActivity r n = some act) (hf : f act = act) :
    updateActivity r n f = r := by
  induction r with
  | nil => rfl
  | cons p rest ih =>
    obtain ⟨k, v⟩ := p
    simp only [List.map_cons, List.nodup_cons] at hkeys
    by_cases hk : k = n
    · subst hk
      simp [findActivity] at h
      subst h
      have hrest : updateActivity rest k f = rest :=
        updateActivity_of_not_mem_keys rest k f hkeys.1
      simp only [updateActivity, List.map_cons] at hrest ⊢
      rw [hrest]
      simp [hf]
    · simp only [findActivity, if_neg hk] at h
      have hrest := ih hkeys.2 h
      simp only [updateActivity, List.map_cons, if_neg hk] at hrest ⊢
      rw [hrest]

theorem findActivity_mem (r : Roster) (n : String) (act : Activity)
    (h : findActivity r n = some act) : (n, act) ∈ r := by
  induction r with
  | nil => simp [findActivity] at h
  | cons p rest ih =>
    obtain ⟨k, v⟩ := p
    by_cases hk : k = n
    · subst hk
      simp [findActivity] at h
      subst h
      exact List.mem_cons_self _ _
    · simp only [findActivity, if_neg hk] at h
      exact List.mem_cons_of_mem _ (ih h)

theorem findActivity_eq_of_mem (r : Roster) (n : String) (v : Activity)
    (hkeys : (r.map Prod.fst).Nodup) (h : (n, v) ∈ r) :
    findActivity r n = some v := by
  induction r with
  | nil => simp at h
  | cons p rest ih =>
    obtain ⟨k, w⟩ := p
    simp only [List.map_cons, List.nodup_cons] at hkeys
    rcases List.mem_cons.mp h with h1 | h1
    · simp only [Prod.mk.injEq] at h1
      obtain ⟨hk, hv⟩ := h1
      subst hk
      subst hv
      simp [findActivity]
    · have hk : k ≠ n := by
        intro hkn
        subst hkn
        exact hkeys.1 (List.mem_map.mpr ⟨(k, v), h1, rfl⟩)
      simp only [findActivity, if_neg hk]
      exact ih hkeys.2 h1

/-! ### Lemmas about removeFirst -/

theorem removeFirst_sublist (xs : List String) (e : String) :
    List.Sublist (removeFirst xs e) xs := by
  induction xs with
  | nil => exact List.Sublist.refl _
  | cons x rest ih =>
    by_cases hx : x = e
    · simp only [removeFirst, if_pos hx]
      exact List.sublist_cons_self _ _
    · simp only [removeFirst, if_neg hx]
      exact List.Sublist.cons₂ _ ih

theorem removeFirst_of_not_mem (xs : List String) (e : String) (h : e ∉ xs) :
    removeFirst xs e = xs := by
  induction xs with
  | nil => rfl
  | cons x rest ih =>
    simp only [List.mem_cons, not_or] at h
    have hx : x ≠ e := fun hh => h.1 hh.symm
    simp only [removeFirst, if_neg hx]
    rw [ih h.2]

theorem removeFirst_append_singleton (xs : List String) (e : String) (h : e ∉ xs) :
    removeFirst (xs ++ [e]) e = xs := by
  induction xs with
  | nil => simp [removeFirst]
  | cons x rest ih =>
    simp only [List.mem_cons, not_or] at h
    have hx : x ≠ e := fun hh => h.1 hh.symm
    simp only [List.cons_append, removeFirst, if_neg hx, List.append_eq]
    rw [ih h.2]

theorem length_removeFirst (xs : List String) (e : String) (h : e ∈ xs) :
    (removeFirst xs e).length + 1 = xs.length := by
  induction xs with
  | nil => simp at h
  | cons x rest ih =>
    by_cases hx : x = e
    · simp [removeFirst, if_pos hx]
    · rcases List.mem_cons.mp h with h1 | h1
      · exact absurd h1.symm hx
      · simp only [removeFirst, if_neg hx, List.length_cons]
        rw [← ih h1]

theorem not_mem_removeFirst (xs : List String) (e : String) (hnd : xs.Nodup) (h : e ∈ xs) :
    e ∉ removeFirst xs e := by
  induction xs with
  | nil => simp at h
  | cons x rest ih =>
    simp only [List.nodup_cons] at hnd
    by_cases hx : x = e
    · subst hx
      simp only [removeFirst, if_pos rfl]
      exact hnd.1
    · rcases List.mem_cons.mp h with h1 | h1
      · exact absurd h1.symm hx
      · simp only [removeFirst, if_neg hx, List.mem_cons, not_or]
        exact ⟨fun hh => hx hh.symm, ih hnd.2 h1⟩

theorem nodup_removeFirst (xs : List String) (e : String) (hnd : xs.Nodup) :
    (removeFirst xs e).Nodup :=
  List.Nodup.sublist (removeFirst_sublist xs e) hnd

theorem nodup_append_singleton (xs : List String) (e : String) (hnd : xs.Nodup)
    (h : e ∉ xs) : (xs ++ [e]).Nodup := by
  induction xs with
  | nil => simp
  | cons x rest ih =>
    simp only [List.mem_cons, not_or] at h
    simp only [List.nodup_cons] at hnd
    simp only [List.cons_append, List.nodup_cons, List.mem_append, List.mem_singleton, not_or]
    exact ⟨⟨hnd.1, fun hh => h.1 hh.symm⟩, ih hnd.2 h.2⟩

/-! ### Case analysis of the two mutating handlers -/

theorem signup_notfound (r : Roster) (a e : String) (h : findActivity r a = none) :
    signup_for_activity r a e = (Response.error 404 "Activity not found", r) := by
  simp [signup_for_activity, h]

theorem signup_conflict (r : Roster) (a e : String) (act : Activity)
    (h : findActivity r a = some act) (he : e ∈ act.participants) :
    signup_for_activity r a e =
      (Response.error 400 "Student already signed up for this activity", r) := by
  simp [signup_for_activity, h, he]

theorem signup_success (r : Roster) (a e : String) (act : Activity)
    (h : findActivity r a = some act) (he : e ∉ act.participants) :
    signup_for_activity r a e =
      (Response.ok ("Signed up " ++ e ++ " for " ++ a),
       updateActivity r a fun x => { x with participants := x.participants ++ [e] }) := by
  simp [signup_for_activity, h, he]

theorem unregister_notfound (r : Roster) (a e : String) (h : findActivity r a = none) :
    unregister_from_activity r a e = (Response.error 404 "Activity not found", r) := by
  simp [unregister_from_activity, h]

theorem unregister_conflict (r : Roster) (a e : String) (act : Activity)
    (h : findActivity r a = some act) (he : e ∉ act.participants) :
    unregister_from_activity r a e =
      (Response.error 400 "Student not signed up for this activity", r) := by
  simp [unregister_from_activity, h, he]

theorem unregister_success (r : Roster) (a e : String) (act : Activity)
    (h : findActivity r a = some act) (he : e ∈ act.participants) :
    unregister_from_activity r a e =
      (Response.ok ("Unregistered " ++ e ++ " from " ++ a),
       updateActivity r a fun x => { x with participants := removeFirst x.participants e }) := by
  simp [unregister_from_activity, h, he]

/-! ### The roster invariant and its preservation -/

/-- The well-formedness invariant of the roster: activity names are
unique (as in a Python dictionary) and no participant list contains a
duplicate email. -/
def GoodRoster (r : Roster) : Prop :=
  (r.map Prod.fst).Nodup ∧ ∀ p ∈ r, p.2.participants.Nodup

instance (r : Roster) : Decidable (GoodRoster r) := by
  unfold GoodRoster
  infer_instance

theorem goodRoster_activities : GoodRoster activities := by decide

theorem mem_updateActivity (r : Roster) (n : String) (f : Activity → Activity)
    (q : String × Activity) (h : q ∈ updateActivity r n f) :
    ∃ p ∈ r, q = (p.1, if p.1 = n then f p.2 else p.2) := by
  simp only [updateActivity, List.mem_map] at h
  obtain ⟨p, hp, hq⟩ := h
  exact ⟨p, hp, hq.symm⟩

theorem goodRoster_signup (r : Roster) (a e : String) (h : GoodRoster r) :
    GoodRoster (signup_for_activity r a e).2 := by
  rcases hfind : findActivity r a with _ | act
  · rw [signup_notfound r a e hfind]
    exact h
  · by_cases he : e ∈ act.participants
    · rw [signup_conflict r a e act hfind he]
      exact h
    · rw [signup_success r a e act hfind he]
      dsimp only
      refine ⟨by rw [updateActivity_map_fst]; exact h.1, ?_⟩
      intro q hq
      obtain ⟨p, hp, hq⟩ := mem_updateActivity r a _ q hq
      subst hq
      by_cases hpa : p.1 = a
      · have hpv : findActivity r a = some p.2 := by
          rw [← hpa]
          exact findActivity_eq_of_mem r p.1 p.2 h.1 (by rwa [Prod.mk.eta])
        rw [hfind] at hpv
        have hact : p.2 = act := by
          injection hpv with hv
          exact hv.symm
        have hnd : act.participants.Nodup := by
          rw [← hact]
          exact h.2 p hp
        simp only [if_pos hpa, hact]
        exact nodup_append_singleton act.participants e hnd he
      · simp only [if_neg hpa]
        exact h.2 p hp

theorem goodRoster_unregister (r : Roster) (a e : String) (h : GoodRoster r) :
    GoodRoster (unregister_from_activity r a e).2 := by
  rcases hfind : findActivity r a with _ | act
  · rw [unregister_notfound r a e hfind]
    exact h
  · by_cases he : e ∈ act.participants
    · rw [unregister_success r a e act hfind he]
      dsimp only
      refine ⟨by rw [updateActivity_map_fst]; exact h.1, ?_⟩
      intro q hq
      obtain ⟨p, hp, hq⟩ := mem_updateActivity r a _ q hq
      subst hq
      by_cases hpa : p.1 = a
      · simp only [if_pos hpa]
        exact nodup_removeFirst p.2.participants e (h.2 p hp)
      · simp only [if_neg hpa]
        exact h.2 p hp
    · rw [unregister_conflict r a e act hfind he]
      exact h

theorem goodRoster_applyOp (r : Roster) (op : Op) (h : GoodRoster r) :
    GoodRoster (applyOp r op) := by
  cases op with
  | list => exact h
  | signup a e => exact goodRoster_signup r a e h
  | unregister a e => exact goodRoster_unregister r a e h

theorem goodRoster_runOps_of (r : Roster) (ops : List Op) (h : GoodRoster r) :
    GoodRoster (runOps r ops) := by
  induction ops generalizing r with
  | nil => exact h
  | cons op rest ih => exact ih _ (goodRoster_applyOp r op h)

theorem goodRoster_runOps (ops : List Op) : GoodRoster (runOps activities ops) :=
  goodRoster_runOps_of activities ops goodRoster_activities

/-! ### The claims -/

/-- C1: for every roster in which activity `a` is present with record `act`
and every email `e` not in its participant list, signup answers 200 with the
message `Signed up e for a`, and afterwards the participant list of `a` is
the old list with `e` appended, one element longer. -/
theorem C1_signup_success_appends (r : Roster) (a e : String) (act : Activity)
    (h : findActivity r a = some act) (he : e ∉ act.participants) :
    (signup_for_activity r a e).1 = Response.ok ("Signed up " ++ e ++ " for " ++ a) ∧
    findActivity (signup_for_activity r a e).2 a =
      some { act with participants := act.participants ++ [e] } ∧
    (act.participants ++ [e]).length = act.participants.length + 1 := by
  rw [signup_success r a e act h he]
  refine ⟨rfl, ?_, by simp⟩
  dsimp only
  rw [findActivity_updateActivity_self, h]
  rfl

theorem C1_witness :
    (signup_for_activity activities "Soccer Club" "newstudent@mergington.edu").1 =
      Response.ok ("Signed up " ++ "newstudent@mergington.edu" ++ " for " ++ "Soccer Club") :=
  (C1_signup_success_appends activities "Soccer Club" "newstudent@mergington.edu" soccerClub
    (by decide) (by decide)).1

/-- C5: after any finite sequence of list, signup and unregister requests
served from the seeded roster, no activity's participant list contains a
duplicate email. -/
theorem C5_participants_nodup (ops : List Op) (a : String) (act : Activity)
    (h : findActivity (runOps activities ops) a = some act) :
    act.participants.Nodup :=
  (goodRoster_runOps ops).2 (a, act) (findActivity_mem _ _ _ h)

theorem C5_witness : dramaClub.participants.Nodup :=
  C5_participants_nodup [] "Drama Club" dramaClub (by decide)

/-- C7: signup never consults `max_participants`: when the activity exists
and the email is new, it succeeds even if the participant list already has
at least `max_participants` entries. -/
theorem C7_no_capacity_check (r : Roster) (a e : String) (act : Activity)
    (h : findActivity r a = some act) (he : e ∉ act.participants)
    (hfull : act.max_participants ≤ act.participants.length) :
    (signup_for_activity r a e).1 = Response.ok ("Signed up " ++ e ++ " for " ++ a) := by
  rw [signup_success r a e act h he]

theorem C7_witness :
    (signup_for_activity
        [("Tiny Club", { name := none, description := "d", schedule := "s",
                         max_participants := 1, participants := ["a@x.edu"] })]
        "Tiny Club" "b@x.edu").1 =
      Response.ok ("Signed up " ++ "b@x.edu" ++ " for " ++ "Tiny Club") :=
  C7_no_capacity_check
    [("Tiny Club", { name := none, description := "d", schedule := "s",
                     max_participants := 1, participants := ["a@x.edu"] })]
    "Tiny Club" "b@x.edu"
    { name := none, description := "d", schedule := "s",
      max_participants := 1, participants := ["a@x.edu"] }
    (by decide) (by decide) (by decide)

/-- C8: `GET /activities` returns the full current roster unchanged, and in
particular every seeded activity name is present; the operation has no side
effect on the roster. -/
theorem C8_list_activities_full_roster :
    (∀ r : Roster, get_activities r = r) ∧
    (∀ (r : Roster) (a : String), findActivity (get_activities r) a = findActivity r a) ∧
    (get_activities activities).map Prod.fst =
      ["Soccer Club", "Tennis Team", "Art Club", "Drama Club", "Robotics Club",
       "Math Team", "Chess Club", "Programming Class", "Gym Class"] :=
  ⟨fun _ => rfl, fun _ _ => rfl, rfl⟩

/-- C10: the duplicate-signup check is scoped to the one activity: if `e` is
already a participant of a different activity `b` but not of `a`, signup for
`a` still succeeds and appends `e` to `a`. -/
theorem C10_duplicate_check_scoped (r : Roster) (a b e : String)
    (actA actB : Activity) (hab : a ≠ b)
    (ha : findActivity r a = some actA) (hb : findActivity r b = some actB)
    (heB : e ∈ actB.participants) (heA : e ∉ actA.participants) :
    (signup_for_activity r a e).1 = Response.ok ("Signed up " ++ e ++ " for " ++ a) ∧
    findActivity (signup_for_activity r a e).2 a =
      some { actA with participants := actA.participants ++ [e] } := by
  rw [signup_success r a e actA ha heA]
  refine ⟨rfl, ?_⟩
  dsimp only
  rw [findActivity_updateActivity_self, ha]
  rfl

theorem C10_witness :
    (signup_for_activity activities "Tennis Team" "alex@mergington.edu").1 =
      Response.ok ("Signed up " ++ "alex@mergington.edu" ++ " for " ++ "Tennis Team") :=
  (C10_duplicate_check_scoped activities "Tennis Team" "Soccer Club" "alex@mergington.edu"
    tennisTeam soccerClub (by decide) (by decide) (by decide) (by decide) (by decide)).1

/-- C3: signup answers 404 `Activity not found` exactly when the activity is
unknown, 400 `Student already signed up for this activity` exactly when it
exists and the email is already a participant, and every error leaves the
roster unchanged. -/
theorem C3_signup_failure_modes (r : Roster) (a e : String) :
    ((signup_for_activity r a e).1 = Response.error 404 "Activity not found" ↔
      findActivity r a = none) ∧
    ((signup_for_activity r a e).1 =
        Response.error 400 "Student already signed up for this activity" ↔
      ∃ act, findActivity r a = some act ∧ e ∈ act.participants) ∧
    (∀ s d, (signup_for_activity r a e).1 = Response.error s d →
      (signup_for_activity r a e).2 = r) := by
  rcases hfind : findActivity r a with _ | act
  · rw [signup_notfound r a e hfind]
    refine ⟨by simp, ?_, fun s d _ => rfl⟩
    simp [hfind]
  · by_cases he : e ∈ act.participants
    · rw [signup_conflict r a e act hfind he]
      refine ⟨by simp [hfind], ?_, fun s d _ => rfl⟩
      simp [hfind, he]
    · rw [signup_success r a e act hfind he]
      refine ⟨by simp [hfind], ?_, ?_⟩
      · simp [hfind, he]
      · intro s d hsd
        simp at hsd

theorem C3_witness :
    (signup_for_activity activities "Quidditch" "harry@mergington.edu").2 = activities :=
  (C3_signup_failure_modes activities "Quidditch" "harry@mergington.edu").2.2
    404 "Activity not found" (by decide)

/-- C4: unregister answers 404 `Activity not found` exactly when the activity
is unknown, 400 `Student not signed up for this activity` exactly when it
exists and the email is not a participant, and every error leaves the roster
unchanged. -/
theorem C4_unregister_failure_modes (r : Roster) (a e : String) :
    ((unregister_from_activity r a e).1 = Response.error 404 "Activity not found" ↔
      findActivity r a = none) ∧
    ((unregister_from_activity r a e).1 =
        Response.error 400 "Student not signed up for this activity" ↔
      ∃ act, findActivity r a = some act ∧ e ∉ act.participants) ∧
    (∀ s d, (unregister_from_activity r a e).1 = Response.error s d →
      (unregister_from_activity r a e).2 = r) := by
  rcases hfind : findActivity r a with _ | act
  · rw [unregister_notfound r a e hfind]
    refine ⟨by simp, ?_, fun s d _ => rfl⟩
    simp [hfind]
  · by_cases he : e ∈ act.participants
    · rw [unregister_success r a e act hfind he]
      refine ⟨by simp [hfind], ?_, ?_⟩
      · simp [hfind, he]
      · intro s d hsd
        simp at hsd
    · rw [unregister_conflict r a e act hfind he]
      refine ⟨by simp [hfind], ?_, fun s d _ => rfl⟩
      simp [hfind, he]

theorem C4_witness :
    (unregister_from_activity activities "Chess Club" "ghost@mergington.edu").2 = activities :=
  (C4_unregister_failure_modes activities "Chess Club" "ghost@mergington.edu").2.2
    400 "Student not signed up for this activity" (by decide)

/-- C2: in any roster reachable from the seeded one, unregistering an email
that is a participant of activity `a` answers 200 with the message
`Unregistered e from a`, and afterwards the participant list of `a` is the
old one with the single matching entry removed: `e` is absent, the length
dropped by one, and the remaining entries keep their relative order. -/
theorem C2_unregister_success_removes (ops : List Op) (a e : String) (act : Activity)
    (h : findActivity (runOps activities ops) a = some act)
    (he : e ∈ act.participants) :
    (unregister_from_activity (runOps activities ops) a e).1 =
      Response.ok ("Unregistered " ++ e ++ " from " ++ a) ∧
    findActivity (unregister_from_activity (runOps activities ops) a e).2 a =
      some { act with participants := removeFirst act.participants e } ∧
    e ∉ removeFirst act.participants e ∧
    (removeFirst act.participants e).length + 1 = act.participants.length ∧
    List.Sublist (removeFirst act.participants e) act.participants := by
  have hgood := goodRoster_runOps ops
  have hnd : act.participants.Nodup := hgood.2 (a, act) (findActivity_mem _ _ _ h)
  rw [unregister_success _ a e act h he]
  refine ⟨rfl, ?_, not_mem_removeFirst _ _ hnd he, length_removeFirst _ _ he,
    removeFirst_sublist _ _⟩
  dsimp only
  rw [findActivity_updateActivity_self, h]
  rfl

theorem C2_witness :
    (unregister_from_activity (runOps activities []) "Drama Club" "lucas@mergington.edu").1 =
      Response.ok ("Unregistered " ++ "lucas@mergington.edu" ++ " from " ++ "Drama Club") :=
  (C2_unregister_success_removes [] "Drama Club" "lucas@mergington.edu" dramaClub
    (by decide) (by decide)).1

/-- C6: in any roster reachable from the seeded one, signing up a new email
for an activity and then unregistering it returns the roster to exactly its
prior state. -/
theorem C6_signup_unregister_roundtrip (ops : List Op) (a e : String) (act : Activity)
    (h : findActivity (runOps activities ops) a = some act)
    (he : e ∉ act.participants) :
    (unregister_from_activity
        (signup_for_activity (runOps activities ops) a e).2 a e).2 =
      runOps activities ops := by
  have hgood : GoodRoster (runOps activities ops) := goodRoster_runOps ops
  rw [signup_success _ a e act h he]
  dsimp only
  have h1 : findActivity
      (updateActivity (runOps activities ops) a fun x =>
        { x with participants := x.participants ++ [e] }) a =
      some { act with participants := act.participants ++ [e] } := by
    rw [findActivity_updateActivity_self, h]
    rfl
  have he1 : e ∈ ({ act with participants := act.participants ++ [e] } : Activity).participants := by
    simp
  rw [unregister_success _ a e _ h1 he1]
  dsimp only
  rw [updateActivity_updateActivity]
  refine updateActivity_id_of_findActivity _ a _ act hgood.1 h ?_
  dsimp only
  rw [removeFirst_append_singleton act.participants e he]

theorem C6_witness :
    (unregister_from_activity
        (signup_for_activity (runOps activities []) "Soccer Club" "maria@mergington.edu").2
        "Soccer Club" "maria@mergington.edu").2 =
      runOps activities [] :=
  C6_signup_unregister_roundtrip [] "Soccer Club" "maria@mergington.edu" soccerClub
    (by decide) (by decide)

theorem signup_ok_inversion (r : Roster) (a e m : String) (r1 : Roster)
    (h : signup_for_activity r a e = (Response.ok m, r1)) :
    ∃ act, findActivity r a = some act ∧ e ∉ act.participants ∧
      r1 = updateActivity r a fun x => { x with participants := x.participants ++ [e] } := by
  rcases hfind : findActivity r a with _ | act
  · rw [signup_notfound r a e hfind] at h
    simp [Prod.mk.injEq] at h
  · by_cases he : e ∈ act.participants
    · rw [signup_conflict r a e act hfind he] at h
      simp [Prod.mk.injEq] at h
    · rw [signup_success r a e act hfind he] at h
      rw [Prod.mk.injEq] at h
      exact ⟨act, rfl, he, h.2.symm⟩

theorem unregister_ok_inversion (r : Roster) (a e m : String) (r1 : Roster)
    (h : unregister_from_activity r a e = (Response.ok m, r1)) :
    ∃ act, findActivity r a = some act ∧ e ∈ act.participants ∧
      r1 = updateActivity r a fun x => { x with participants := removeFirst x.participants e } := by
  rcases hfind : findActivity r a with _ | act
  · rw [unregister_notfound r a e hfind] at h
    simp [Prod.mk.injEq] at h
  · by_cases he : e ∈ act.participants
    · rw [unregister_success r a e act hfind he] at h
      rw [Prod.mk.injEq] at h
      exact ⟨act, rfl, he, h.2.symm⟩
    · rw [unregister_conflict r a e act hfind he] at h
      simp [Prod.mk.injEq] at h

theorem signup_snd_map_fst (r : Roster) (a e : String) :
    ((signup_for_activity r a e).2).map Prod.fst = r.map Prod.fst := by
  rcases hfind : findActivity r a with _ | act
  · rw [signup_notfound r a e hfind]
  · by_cases he : e ∈ act.participants
    · rw [signup_conflict r a e act hfind he]
    · rw [signup_success r a e act hfind he]
      dsimp only
      exact updateActivity_map_fst r a _

theorem unregister_snd_map_fst (r : Roster) (a e : String) :
    ((unregister_from_activity r a e).2).map Prod.fst = r.map Prod.fst := by
  rcases hfind : findActivity r a with _ | act
  · rw [unregister_notfound r a e hfind]
  · by_cases he : e ∈ act.participants
    · rw [unregister_success r a e act hfind he]
      dsimp only
      exact updateActivity_map_fst r a _
    · rw [unregister_conflict r a e act hfind he]

/-- C9: every request preserves the list of activity names, and a successful
signup or unregister for activity `a` changes nothing outside `a`'s
participant list: lookups of other activities are unchanged, and `a` keeps
its name, description, schedule and max_participants. -/
theorem C9_frame_preservation (r : Roster) :
    (∀ op, (applyOp r op).map Prod.fst = r.map Prod.fst) ∧
    (∀ a e m r1, signup_for_activity r a e = (Response.ok m, r1) →
      (∀ b, b ≠ a → findActivity r1 b = findActivity r b) ∧
      ∀ act1, findActivity r1 a = some act1 →
        ∃ act, findActivity r a = some act ∧ act1.name = act.name ∧
          act1.description = act.description ∧ act1.schedule = act.schedule ∧
          act1.max_participants = act.max_participants) ∧
    (∀ a e m r1, unregister_from_activity r a e = (Response.ok m, r1) →
      (∀ b, b ≠ a → findActivity r1 b = findActivity r b) ∧
      ∀ act1, findActivity r1 a = some act1 →
        ∃ act, findActivity r a = some act ∧ act1.name = act.name ∧
          act1.description = act.description ∧ act1.schedule = act.schedule ∧
          act1.max_participants = act.max_participants) := by
  refine ⟨?_, ?_, ?_⟩
  · intro op
    cases op with
    | list => rfl
    | signup a e => exact signup_snd_map_fst r a e
    | unregister a e => exact unregister_snd_map_fst r a e
  · intro a e m r1 hok
    obtain ⟨act, hfind, he, hr1⟩ := signup_ok_inversion r a e m r1 hok
    subst hr1
    refine ⟨fun b hb => findActivity_updateActivity_ne r a b _ hb, ?_⟩
    intro act1 h1
    rw [findActivity_updateActivity_self, hfind] at h1
    simp at h1
    subst h1
    exact ⟨act, hfind, rfl, rfl, rfl, rfl⟩
  · intro a e m r1 hok
    obtain ⟨act, hfind, he, hr1⟩ := unregister_ok_inversion r a e m r1 hok
    subst hr1
    refine ⟨fun b hb => findActivity_updateActivity_ne r a b _ hb, ?_⟩
    intro act1 h1
    rw [findActivity_updateActivity_self, hfind] at h1
    simp at h1
    subst h1
    exact ⟨act, hfind, rfl, rfl, rfl, rfl⟩

theorem C9_witness :
    findActivity (signup_for_activity activities "Soccer Club" "m@x.edu").2 "Chess Club" =
      findActivity activities "Chess Club" :=
  ((C9_frame_preservation activities).2.1 "Soccer Club" "m@x.edu"
      ("Signed up " ++ "m@x.edu" ++ " for " ++ "Soccer Club")
      (signup_for_activity activities "Soccer Club" "m@x.edu").2 (by decide)).1
    "Chess Club" (by decide)
